import Mathlib

/-!
Verification of the whisperserve job lifecycle core: the Job entity and its
FSM helpers (src/app/models/job.py), the claiming scheduler
(src/app/worker/processor.py), the status update gateway
(src/app/worker/activities/status.py), the transcription workflow's failure
handling (src/app/worker/workflows/transcription.py) together with the media
download activity (src/app/worker/activities/download.py), and the job API
routes (src/app/api/routes/jobs.py).

Python machine-level conventions used throughout the embedding:
- `datetime.now()` values are supplied as explicit integer parameters.
- JSON error blobs are modelled by the inductive `ErrorInfo`, one constructor
  per dict literal shape occurring in the source.
- Reading an object attribute that neither the class nor the instance defines
  raises `AttributeError`; functions that can raise return a pair or an
  `Except` carrying `PyError`.  Python mutates objects in place, so a method
  that mutates and then raises returns the mutated object together with the
  error.
- Floats (`media_duration_seconds`, `processing_time_seconds`) are only ever
  stored and copied by the verified code, so they are modelled as opaque
  integers.
-/

namespace WhisperServe

/-- JobState enum, src/app/models/job.py lines 19-28. -/
inductive JobState where
  | PENDING
  | CLAIMED
  | DOWNLOADING
  | PROCESSING
  | SUCCEEDED
  | FAILED
  | RETRYING
  | CANCELED
deriving DecidableEq, Repr

/-- ProcessingMode enum, src/app/models/job.py lines 30-34. -/
inductive ProcessingMode where
  | DOWNMIX
  | SELECT
  | MULTITRACK
deriving DecidableEq, Repr

/-- JSON error blobs stored in `Job.error` and in `error_history` entries.
Each constructor mirrors one dict literal of the source:
`msg` is the single-key dict built in src/app/api/routes/jobs.py line 107 and
the default in src/app/worker/activities/status.py line 53; `workerErr` is the
dict built in src/app/worker/processor.py lines 212-216; `wfErr` is the dict
built in src/app/worker/workflows/transcription.py lines 142-145. -/
inductive ErrorInfo where
  | msg (error : String)
  | workerErr (error : String) (timestamp : Int) (worker_id : String)
  | wfErr (error : String) (error_type : String)
deriving DecidableEq, Repr

/-- One entry of `Job.error_history`, the dict built in
src/app/models/job.py lines 103-107. -/
structure ErrorEntry where
  attempt : Int
  timestamp : Int
  error : ErrorInfo
deriving DecidableEq, Repr

/-- Errors raised by the embedded Python code. -/
inductive PyError where
  | attrError (name : String)
  | valError (msg : String)
deriving DecidableEq, Repr

/-- The Job entity, src/app/models/job.py lines 37-70.  Declared columns become
typed fields (UUIDs are modelled as strings, timestamps and floats as opaque
integers).  `started_at` and `completed_at` are NOT declared columns: they are
plain instance attributes that exist only after some code assigns them, so they
are modelled presence-aware as `Option (Option Int)` with `none` meaning the
attribute is absent (reading it raises AttributeError) and `some v` meaning the
attribute is present with value `v`. -/
structure Job where
  id : String
  tenant_id : String
  state : JobState
  media_url : String
  media_sha256 : Option String
  processing_mode : ProcessingMode
  track_index : Option Int
  attempt_count : Int
  max_attempts : Int
  created_at : Int
  updated_at : Int
  worker_id : Option String
  error : Option ErrorInfo
  error_history : Option (List ErrorEntry)
  result : Option String
  media_duration_seconds : Option Int
  processing_time_seconds : Option Int
  started_at : Option (Option Int) := none
  completed_at : Option (Option Int) := none
deriving DecidableEq, Repr

/-- A job as built by the `Job(...)` constructor call in
src/app/api/routes/jobs.py lines 63-70 and flushed with the column defaults of
src/app/models/job.py lines 40-70: state PENDING (passed explicitly),
attempt_count 0, max_attempts as configured (column default 3), empty error
history, every nullable column None.  `started_at`/`completed_at` are absent
(no column declares them and nothing assigned them). -/
def mkJob (id tenant_id media_url : String) (media_sha256 : Option String)
    (max_attempts : Int) (now : Int) : Job :=
  { id := id
    tenant_id := tenant_id
    state := JobState.PENDING
    media_url := media_url
    media_sha256 := media_sha256
    processing_mode := ProcessingMode.DOWNMIX
    track_index := none
    attempt_count := 0
    max_attempts := max_attempts
    created_at := now
    updated_at := now
    worker_id := none
    error := none
    error_history := some []
    result := none
    media_duration_seconds := none
    processing_time_seconds := none }

/-- Job.record_failure, src/app/models/job.py lines 94-128: append an entry
`(attempt := attempt_count, timestamp := now, error := error_info)` to
`error_history` (treating a missing history as empty), set `error`, increment
`attempt_count`, and go to FAILED when the incremented count has reached
`max_attempts`, else to RETRYING. -/
def Job.record_failure (self : Job) (error_info : ErrorInfo) (now : Int) : Job :=
  let history := self.error_history.getD []
  let entry : ErrorEntry := ⟨self.attempt_count, now, error_info⟩
  let current_attempts := self.attempt_count
  { self with
    error_history := some (history ++ [entry])
    error := some error_info
    attempt_count := current_attempts + 1
    state := if current_attempts + 1 ≥ self.max_attempts then JobState.FAILED
             else JobState.RETRYING }

/-- Job.mark_as_processing, src/app/models/job.py lines 130-135: assign
`worker_id` and `state`, then read `self.started_at`.  Since `started_at` is
not a declared column and no code path assigns it before this read, the read
raises AttributeError whenever the attribute is absent; the already-applied
mutations survive (Python mutates in place), hence the result pairs the
mutated job with the optional raised error. -/
def Job.mark_as_processing (self : Job) (worker_id : String) (now : Int) :
    Job × Option PyError :=
  let j := { self with worker_id := some worker_id, state := JobState.PROCESSING }
  match j.started_at with
  | Option.none => (j, some (PyError.attrError "started_at"))
  | some Option.none => ({ j with started_at := some (some now) }, none)
  | some (some _) => (j, none)

/-- Job.mark_as_succeeded, src/app/models/job.py lines 137-145: assign state
SUCCEEDED, store the result, assign `completed_at` (creating the instance
attribute), and store both metrics.  No state is checked and nothing raises. -/
def Job.mark_as_succeeded (self : Job) (result : String)
    (media_duration processing_time : Option Int) (now : Int) : Job :=
  { self with
    state := JobState.SUCCEEDED
    result := some result
    completed_at := some (some now)
    media_duration_seconds := media_duration
    processing_time_seconds := processing_time }

/-- Iterated invocation of `Job.record_failure` over a list of
(error detail, timestamp) pairs, left to right. -/
def recordFailures (j : Job) (errs : List (ErrorInfo × Int)) : Job :=
  errs.foldl (fun j et => j.record_failure et.1 et.2) j

/-- The error-history entries produced by a run of failures whose first entry
carries attempt index `a`: consecutive attempt indices starting at `a`. -/
def entriesFrom (a : Int) : List (ErrorInfo × Int) → List ErrorEntry
  | [] => []
  | (e, t) :: rest => ⟨a, t, e⟩ :: entriesFrom (a + 1) rest

theorem recordFailures_append (j : Job) (l₁ l₂ : List (ErrorInfo × Int)) :
    recordFailures j (l₁ ++ l₂) = recordFailures (recordFailures j l₁) l₂ :=
  List.foldl_append _ _ _ _

theorem record_failure_attempt_count (j : Job) (e : ErrorInfo) (t : Int) :
    (j.record_failure e t).attempt_count = j.attempt_count + 1 := rfl

theorem record_failure_max_attempts (j : Job) (e : ErrorInfo) (t : Int) :
    (j.record_failure e t).max_attempts = j.max_attempts := rfl

theorem recordFailures_attempt_count (errs : List (ErrorInfo × Int)) :
    ∀ j : Job, (recordFailures j errs).attempt_count = j.attempt_count + errs.length := by
  induction errs with
  | nil => intro j; simp [recordFailures]
  | cons et rest ih =>
      intro j
      show (recordFailures (j.record_failure et.1 et.2) rest).attempt_count = _
      rw [ih]
      simp [record_failure_attempt_count]
      omega

theorem recordFailures_max_attempts (errs : List (ErrorInfo × Int)) :
    ∀ j : Job, (recordFailures j errs).max_attempts = j.max_attempts := by
  induction errs with
  | nil => intro j; rfl
  | cons et rest ih =>
      intro j
      show (recordFailures (j.record_failure et.1 et.2) rest).max_attempts = _
      rw [ih]
      exact record_failure_max_attempts j et.1 et.2

theorem entriesFrom_length (l : List (ErrorInfo × Int)) :
    ∀ a : Int, (entriesFrom a l).length = l.length := by
  induction l with
  | nil => intro a; rfl
  | cons et rest ih => intro a; cases et; simp [entriesFrom, ih]

theorem entriesFrom_append (l₁ l₂ : List (ErrorInfo × Int)) :
    ∀ a : Int, entriesFrom a (l₁ ++ l₂) =
      entriesFrom a l₁ ++ entriesFrom (a + l₁.length) l₂ := by
  induction l₁ with
  | nil => intro a; simp [entriesFrom]
  | cons et rest ih =>
      intro a
      cases et with
      | mk e t =>
          show ErrorEntry.mk a t e :: entriesFrom (a + 1) (rest ++ l₂) =
            ErrorEntry.mk a t e ::
              (entriesFrom (a + 1) rest ++
                entriesFrom (a + (((e, t) :: rest).length : Int)) l₂)
          rw [ih (a + 1)]
          have harith : a + 1 + (rest.length : Int) =
              a + ((((e, t) :: rest).length : Int)) := by
            push_cast [List.length_cons]
            ring
          rw [harith]

theorem recordFailures_history (errs : List (ErrorInfo × Int)) :
    ∀ (j : Job) (h0 : List ErrorEntry), j.error_history = some h0 →
      (recordFailures j errs).error_history =
        some (h0 ++ entriesFrom j.attempt_count errs) := by
  induction errs with
  | nil =>
      intro j h0 hh
      simpa [recordFailures, entriesFrom] using hh
  | cons et rest ih =>
      intro j h0 hh
      show (recordFailures (j.record_failure et.1 et.2) rest).error_history = _
      cases et with
      | mk e t =>
          rw [ih (j.record_failure e t) (h0 ++ [⟨j.attempt_count, t, e⟩])
                (by simp [Job.record_failure, hh])]
          simp [Job.record_failure, entriesFrom]

theorem recordFailures_concat (j : Job) (l : List (ErrorInfo × Int))
    (e : ErrorInfo) (t : Int) :
    recordFailures j (l ++ [(e, t)]) = (recordFailures j l).record_failure e t := by
  rw [recordFailures_append]
  rfl

/-- C1: starting from a fresh job, N invocations of Job.record_failure produce
an error_history of exactly length N; the invocation after any prefix `pre`
appends exactly the entry (attempt := pre.length, timestamp, detail) and sets
`error` to that latest detail; after it, attempt_count equals the number of
invocations so far and the state is FAILED exactly when attempt_count has
reached max_attempts, RETRYING otherwise. -/
theorem c1_record_failure_run
    (id tenant url : String) (sha : Option String) (m created : Int)
    (pre : List (ErrorInfo × Int)) (e : ErrorInfo) (t : Int) :
    (recordFailures (mkJob id tenant url sha m created)
        (pre ++ [(e, t)])).error_history =
      some (entriesFrom 0 (pre ++ [(e, t)])) ∧
    (entriesFrom 0 (pre ++ [(e, t)])).length = pre.length + 1 ∧
    (entriesFrom 0 (pre ++ [(e, t)])).getLast? =
      some ⟨(pre.length : Int), t, e⟩ ∧
    (recordFailures (mkJob id tenant url sha m created)
        (pre ++ [(e, t)])).error = some e ∧
    (recordFailures (mkJob id tenant url sha m created)
        (pre ++ [(e, t)])).attempt_count = (pre.length : Int) + 1 ∧
    ((recordFailures (mkJob id tenant url sha m created)
        (pre ++ [(e, t)])).state = JobState.FAILED ↔ (pre.length : Int) + 1 ≥ m) ∧
    ((recordFailures (mkJob id tenant url sha m created)
        (pre ++ [(e, t)])).state = JobState.RETRYING ↔ (pre.length : Int) + 1 < m) := by
  have hentries : entriesFrom 0 (pre ++ [(e, t)]) =
      entriesFrom 0 pre ++ [⟨(pre.length : Int), t, e⟩] := by
    rw [entriesFrom_append]
    simp [entriesFrom]
  have hattempt :
      (recordFailures (mkJob id tenant url sha m created) pre).attempt_count =
        (pre.length : Int) := by
    rw [recordFailures_attempt_count]
    simp [mkJob]
  have hmax :
      (recordFailures (mkJob id tenant url sha m created) pre).max_attempts = m := by
    rw [recordFailures_max_attempts]
    rfl
  refine ⟨?_, ?_, ?_, ?_, ?_, ?_, ?_⟩
  · rw [recordFailures_history (pre ++ [(e, t)]) (mkJob id tenant url sha m created)
        [] rfl]
    simp [mkJob]
  · rw [entriesFrom_length]
    simp
  · rw [hentries]
    exact List.getLast?_concat _
  · rw [recordFailures_concat]
    rfl
  · rw [recordFailures_concat, record_failure_attempt_count, hattempt]
  · rw [recordFailures_concat]
    show (if _ + 1 ≥ _ then JobState.FAILED else JobState.RETRYING) = _ ↔ _
    rw [hattempt, hmax]
    split <;> rename_i hcond <;> simp <;> omega
  · rw [recordFailures_concat]
    show (if _ + 1 ≥ _ then JobState.FAILED else JobState.RETRYING) = _ ↔ _
    rw [hattempt, hmax]
    split <;> rename_i hcond <;> simp <;> omega

/-- The per-row claiming assignment performed by JobProcessor.claim_jobs,
src/app/worker/processor.py lines 135-137: state becomes CLAIMED and worker_id
is set to the claiming worker's identity. -/
def claimAssign (j : Job) (w : String) : Job :=
  { j with state := JobState.CLAIMED, worker_id := some w }

/-- One mutation of a job through the repository's write paths: the FSM helpers
of src/app/models/job.py (record_failure, mark_as_processing,
mark_as_succeeded — update_job_status invokes the first two of these with no
state guard) and the claiming assignment of processor.py.  For
mark_as_processing the reached job is the in-place-mutated object, whether or
not the call raised. -/
inductive Step : Job → Job → Prop where
  | recordFailure (j : Job) (e : ErrorInfo) (t : Int) :
      Step j (j.record_failure e t)
  | markProcessing (j : Job) (w : String) (t : Int) :
      Step j (j.mark_as_processing w t).1
  | markSucceeded (j : Job) (r : String) (md pt : Option Int) (t : Int) :
      Step j (j.mark_as_succeeded r md pt t)
  | claim (j : Job) (w : String) :
      Step j (claimAssign j w)

/-- Guarded variant of `Step`: record_failure fires only while the retry
budget is not yet exhausted (attempt_count < max_attempts). -/
inductive StepG : Job → Job → Prop where
  | recordFailure (j : Job) (e : ErrorInfo) (t : Int) :
      j.attempt_count < j.max_attempts → StepG j (j.record_failure e t)
  | markProcessing (j : Job) (w : String) (t : Int) :
      StepG j (j.mark_as_processing w t).1
  | markSucceeded (j : Job) (r : String) (md pt : Option Int) (t : Int) :
      StepG j (j.mark_as_succeeded r md pt t)
  | claim (j : Job) (w : String) :
      StepG j (claimAssign j w)

theorem mark_as_processing_fst (j : Job) (w : String) (t : Int) :
    (j.mark_as_processing w t).1.state = JobState.PROCESSING ∧
    (j.mark_as_processing w t).1.worker_id = some w ∧
    (j.mark_as_processing w t).1.attempt_count = j.attempt_count ∧
    (j.mark_as_processing w t).1.max_attempts = j.max_attempts := by
  rcases h : j.started_at with _ | (_ | v) <;>
    simp [Job.mark_as_processing, h]

theorem stepG_preserves_budget (a b : Job) (h : StepG a b)
    (ha : a.attempt_count ≤ a.max_attempts ∧
      (a.state = JobState.FAILED → a.attempt_count ≥ a.max_attempts)) :
    b.attempt_count ≤ b.max_attempts ∧
      (b.state = JobState.FAILED → b.attempt_count ≥ b.max_attempts) := by
  cases h with
  | recordFailure e t hguard =>
      refine ⟨?_, ?_⟩
      · rw [record_failure_attempt_count, record_failure_max_attempts]
        omega
      · intro hst
        rw [record_failure_attempt_count, record_failure_max_attempts]
        by_contra hlt
        have hneg : ¬ (a.attempt_count + 1 ≥ a.max_attempts) := by omega
        simp only [Job.record_failure, if_neg hneg] at hst
        exact absurd hst (by simp)
  | markProcessing w t =>
      obtain ⟨hs, _, hc, hm⟩ := mark_as_processing_fst a w t
      rw [hs, hc, hm]
      exact ⟨ha.1, by intro hcon; cases hcon⟩
  | markSucceeded r md pt t =>
      exact ⟨ha.1, by intro hcon; cases hcon⟩
  | claim w =>
      exact ⟨ha.1, by intro hcon; cases hcon⟩

/-- C2 (amended): along every run of the FSM helpers and the claiming
assignment from a fresh job in which record_failure is only invoked while
attempt_count < max_attempts, the invariant attempt_count ≤ max_attempts
holds, and state = FAILED implies attempt_count ≥ max_attempts.  (The
counterexample shows the unguarded claim fails.) -/
theorem c2_budget_invariant
    (id tenant url : String) (sha : Option String) (m created : Int) (j : Job)
    (hm : 0 ≤ m)
    (hreach : Relation.ReflTransGen StepG (mkJob id tenant url sha m created) j) :
    j.attempt_count ≤ j.max_attempts ∧
      (j.state = JobState.FAILED → j.attempt_count ≥ j.max_attempts) := by
  induction hreach with
  | refl =>
      refine ⟨by simpa [mkJob] using hm, ?_⟩
      intro hcon
      cases hcon
  | tail hsteps hstep ih =>
      exact stepG_preserves_budget _ _ hstep ih

/-- Witness for c2_budget_invariant: one guarded record_failure step from a
fresh job with max_attempts 3. -/
theorem c2_budget_invariant_witness :
    (0 : Int) ≤ 3 ∧
    (((mkJob "j1" "tA" "u" none 3 0).record_failure
        (ErrorInfo.msg "boom") 1).attempt_count ≤
      ((mkJob "j1" "tA" "u" none 3 0).record_failure
        (ErrorInfo.msg "boom") 1).max_attempts ∧
      (((mkJob "j1" "tA" "u" none 3 0).record_failure
          (ErrorInfo.msg "boom") 1).state = JobState.FAILED →
        ((mkJob "j1" "tA" "u" none 3 0).record_failure
            (ErrorInfo.msg "boom") 1).attempt_count ≥
          ((mkJob "j1" "tA" "u" none 3 0).record_failure
              (ErrorInfo.msg "boom") 1).max_attempts)) :=
  ⟨by decide,
   c2_budget_invariant "j1" "tA" "u" none 3 0 _ (by decide)
     (Relation.ReflTransGen.single
       (StepG.recordFailure (mkJob "j1" "tA" "u" none 3 0)
         (ErrorInfo.msg "boom") 1 (by decide)))⟩

/-- C2 counterexample: a second record_failure on an already-FAILED job (a
sequence of unguarded FSM-helper steps from a fresh job with max_attempts 1)
drives attempt_count to 2 > max_attempts = 1, refuting the claimed invariant
attempt_count ≤ max_attempts. -/
theorem c2_counterexample :
    Relation.ReflTransGen Step (mkJob "j1" "tA" "u" none 1 0)
      (((mkJob "j1" "tA" "u" none 1 0).record_failure
          (ErrorInfo.msg "boom") 1).record_failure (ErrorInfo.msg "boom again") 2) ∧
    ((mkJob "j1" "tA" "u" none 1 0).record_failure
        (ErrorInfo.msg "boom") 1).state = JobState.FAILED ∧
    ¬ ((((mkJob "j1" "tA" "u" none 1 0).record_failure
          (ErrorInfo.msg "boom") 1).record_failure
            (ErrorInfo.msg "boom again") 2).attempt_count ≤
        (((mkJob "j1" "tA" "u" none 1 0).record_failure
          (ErrorInfo.msg "boom") 1).record_failure
            (ErrorInfo.msg "boom again") 2).max_attempts) := by
  refine ⟨?_, by decide, by decide⟩
  exact Relation.ReflTransGen.tail
    (Relation.ReflTransGen.single
      (Step.recordFailure (mkJob "j1" "tA" "u" none 1 0) (ErrorInfo.msg "boom") 1))
    (Step.recordFailure _ (ErrorInfo.msg "boom again") 2)

/-- C8 (amended): Job.mark_as_succeeded performs its assignments
unconditionally from every state, terminal states included: it sets state
SUCCEEDED, stores the result and both metrics, records the completion time,
and leaves all other fields (in particular id, tenant_id, attempt_count,
max_attempts, error_history) unchanged; the function is total — no
InvalidTransition error exists anywhere in the code. -/
theorem c8_mark_as_succeeded_unconditional (j : Job) (r : String)
    (md pt : Option Int) (t : Int) :
    (j.mark_as_succeeded r md pt t).state = JobState.SUCCEEDED ∧
    (j.mark_as_succeeded r md pt t).result = some r ∧
    (j.mark_as_succeeded r md pt t).completed_at = some (some t) ∧
    (j.mark_as_succeeded r md pt t).media_duration_seconds = md ∧
    (j.mark_as_succeeded r md pt t).processing_time_seconds = pt ∧
    (j.mark_as_succeeded r md pt t).id = j.id ∧
    (j.mark_as_succeeded r md pt t).tenant_id = j.tenant_id ∧
    (j.mark_as_succeeded r md pt t).attempt_count = j.attempt_count ∧
    (j.mark_as_succeeded r md pt t).max_attempts = j.max_attempts ∧
    (j.mark_as_succeeded r md pt t).error_history = j.error_history :=
  ⟨rfl, rfl, rfl, rfl, rfl, rfl, rfl, rfl, rfl, rfl⟩

/-- C8 counterexample: calling mark_as_succeeded on a job in the terminal
FAILED state does not fail with InvalidTransition and does not leave the job
unchanged — it silently overwrites state, result and metrics. -/
theorem c8_counterexample :
    ((mkJob "j1" "tA" "u" none 1 0).record_failure
        (ErrorInfo.msg "boom") 1).state = JobState.FAILED ∧
    (((mkJob "j1" "tA" "u" none 1 0).record_failure
        (ErrorInfo.msg "boom") 1).mark_as_succeeded "res" (some 7) (some 8) 9).state
      = JobState.SUCCEEDED ∧
    (((mkJob "j1" "tA" "u" none 1 0).record_failure
        (ErrorInfo.msg "boom") 1).mark_as_succeeded "res" (some 7) (some 8) 9).result
      = some "res" := by
  refine ⟨rfl, rfl, rfl⟩

/-- C9 (code bug): on any job built by the Job constructor,
mark_as_processing assigns worker_id and state PROCESSING and then raises
AttributeError reading the undeclared attribute started_at; it never returns
normally and no start time is ever recorded. -/
theorem c9_mark_as_processing_raises (id tenant url : String)
    (sha : Option String) (m created : Int) (w : String) (t : Int) :
    ((mkJob id tenant url sha m created).mark_as_processing w t).2 =
      some (PyError.attrError "started_at") ∧
    ((mkJob id tenant url sha m created).mark_as_processing w t).1.state =
      JobState.PROCESSING ∧
    ((mkJob id tenant url sha m created).mark_as_processing w t).1.worker_id =
      some w ∧
    ((mkJob id tenant url sha m created).mark_as_processing w t).1.started_at =
      none :=
  ⟨rfl, rfl, rfl, rfl⟩

/-- Attribute names defined on the Job class of src/app/models/job.py: the
declared columns (lines 40-70) and the methods (to_dict, record_failure,
mark_as_processing, mark_as_succeeded).  next_attempt_at, started_at and
completed_at are not among them. -/
def jobClassAttrs : List String :=
  ["id", "tenant_id", "state", "media_url", "media_sha256", "processing_mode",
   "track_index", "attempt_count", "max_attempts", "created_at", "updated_at",
   "worker_id", "error", "error_history", "result", "media_duration_seconds",
   "processing_time_seconds", "to_dict", "record_failure", "mark_as_processing",
   "mark_as_succeeded"]

/-- Python class-attribute lookup Job.name: raises AttributeError when the
class defines no such attribute. -/
def getClassAttr (name : String) : Except PyError String :=
  if name ∈ jobClassAttrs then Except.ok name
  else Except.error (PyError.attrError name)

/-- Building the select statement of JobProcessor.claim_jobs
(src/app/worker/processor.py lines 113-129) evaluates, in order, Job.state
(line 118), Job.state (line 121), Job.next_attempt_at (line 122) and
Job.created_at (line 126) as class attributes; this happens in Python before
anything reaches the database. -/
def buildClaimStmt : Except PyError Unit := do
  let _ ← getClassAttr "state"
  let _ ← getClassAttr "state"
  let _ ← getClassAttr "next_attempt_at"
  let _ ← getClassAttr "created_at"
  Except.ok ()

/-- JobProcessor.claim_jobs (src/app/worker/processor.py lines 95-144): build
the claim statement, then select up to batch_size eligible rows and claim
each one via the CLAIMED/worker_id assignment of lines 135-137.  The
post-build part is unreachable, since the statement build always raises; its
selection is modelled on the PENDING arm only, because the RETRYING
eligibility test reads a column that does not exist. -/
def claim_jobs (db : List Job) (worker_id : String) (batch_size : Nat) :
    Except PyError (List Job) := do
  let _ ← buildClaimStmt
  let selected := (db.filter (fun j => j.state == JobState.PENDING)).take batch_size
  Except.ok (selected.map (fun j => claimAssign j worker_id))

theorem claim_jobs_raises (db : List Job) (w : String) (b : Nat) :
    claim_jobs db w b = Except.error (PyError.attrError "next_attempt_at") := rfl

/-- C5 (code bug): every invocation of the claiming operation raises
AttributeError on Job.next_attempt_at while building its select statement,
because next_attempt_at is not a declared column of the Job model; no job is
ever selected, ordered, locked or claimed. -/
theorem c5_claim_jobs_always_raises (db : List Job) (w : String) (b : Nat) :
    claim_jobs db w b = Except.error (PyError.attrError "next_attempt_at") :=
  claim_jobs_raises db w b

/-- C4 (code bug): any two claim operations over the same job store return
disjoint job-id sets only vacuously — each invocation raises AttributeError
on Job.next_attempt_at before selecting anything, so neither claimant ever
returns a batch or holds any job. -/
theorem c4_concurrent_claims_both_raise (db : List Job) (w1 w2 : String)
    (b1 b2 : Nat) :
    claim_jobs db w1 b1 = Except.error (PyError.attrError "next_attempt_at") ∧
    claim_jobs db w2 b2 = Except.error (PyError.attrError "next_attempt_at") :=
  ⟨claim_jobs_raises db w1 b1, claim_jobs_raises db w2 b2⟩

/-- Values carried by the metadata dict of UpdateJobStatusInput
(src/app/worker/models.py line 54); one constructor per Python value kind the
job columns hold. -/
inductive MetaVal where
  | mNone
  | mStr (s : String)
  | mInt (n : Int)
  | mState (s : JobState)
  | mMode (m : ProcessingMode)
  | mErr (e : ErrorInfo)
  | mHist (h : List ErrorEntry)
deriving DecidableEq, Repr

abbrev Metadata := List (String × MetaVal)

/-- Python hasattr on a Job instance: true for class attributes (columns and
methods) and for instance attributes previously created by assignment
(started_at, completed_at when present). -/
def Job.hasattr (j : Job) (key : String) : Bool :=
  jobClassAttrs.contains key ||
    (key == "started_at" && j.started_at.isSome) ||
    (key == "completed_at" && j.completed_at.isSome)

/-- Python setattr(job, key, value) for the attribute names existing on Job
instances, the open-ended reflective assignment of status.py line 60.  The
assignment is modelled field-wise: exactly the field whose name equals key
receives the value, every other field keeps its old value — equivalent to
Python's single-attribute assignment, since key equals at most one field
name.  Assignments are modelled for values of the column's Python type
(SQLAlchemy accepts ill-typed values in memory too, deferring failure to
flush; those are outside the model).  Unknown keys leave the record
unchanged — update_job_status only calls this under its hasattr guard. -/
def Job.setattr (j : Job) (key : String) (v : MetaVal) : Job :=
  { id := if key = "id" then
      (match v with | MetaVal.mStr s => s | _ => j.id) else j.id
    tenant_id := if key = "tenant_id" then
      (match v with | MetaVal.mStr s => s | _ => j.tenant_id) else j.tenant_id
    state := if key = "state" then
      (match v with | MetaVal.mState s => s | _ => j.state) else j.state
    media_url := if key = "media_url" then
      (match v with | MetaVal.mStr s => s | _ => j.media_url) else j.media_url
    media_sha256 := if key = "media_sha256" then
      (match v with
       | MetaVal.mStr s => some s
       | MetaVal.mNone => none
       | _ => j.media_sha256) else j.media_sha256
    processing_mode := if key = "processing_mode" then
      (match v with
       | MetaVal.mMode m => m
       | _ => j.processing_mode) else j.processing_mode
    track_index := if key = "track_index" then
      (match v with
       | MetaVal.mInt n => some n
       | MetaVal.mNone => none
       | _ => j.track_index) else j.track_index
    attempt_count := if key = "attempt_count" then
      (match v with | MetaVal.mInt n => n | _ => j.attempt_count)
      else j.attempt_count
    max_attempts := if key = "max_attempts" then
      (match v with | MetaVal.mInt n => n | _ => j.max_attempts)
      else j.max_attempts
    created_at := if key = "created_at" then
      (match v with | MetaVal.mInt n => n | _ => j.created_at) else j.created_at
    updated_at := if key = "updated_at" then
      (match v with | MetaVal.mInt n => n | _ => j.updated_at) else j.updated_at
    worker_id := if key = "worker_id" then
      (match v with
       | MetaVal.mStr s => some s
       | MetaVal.mNone => none
       | _ => j.worker_id) else j.worker_id
    error := if key = "error" then
      (match v with
       | MetaVal.mErr e => some e
       | MetaVal.mNone => none
       | _ => j.error) else j.error
    error_history := if key = "error_history" then
      (match v with
       | MetaVal.mHist h => some h
       | MetaVal.mNone => none
       | _ => j.error_history) else j.error_history
    result := if key = "result" then
      (match v with
       | MetaVal.mStr s => some s
       | MetaVal.mNone => none
       | _ => j.result) else j.result
    media_duration_seconds := if key = "media_duration_seconds" then
      (match v with
       | MetaVal.mInt n => some n
       | MetaVal.mNone => none
       | _ => j.media_duration_seconds) else j.media_duration_seconds
    processing_time_seconds := if key = "processing_time_seconds" then
      (match v with
       | MetaVal.mInt n => some n
       | MetaVal.mNone => none
       | _ => j.processing_time_seconds) else j.processing_time_seconds
    started_at := if key = "started_at" then
      (match v with
       | MetaVal.mInt n => some (some n)
       | MetaVal.mNone => some none
       | _ => j.started_at) else j.started_at
    completed_at := if key = "completed_at" then
      (match v with
       | MetaVal.mInt n => some (some n)
       | MetaVal.mNone => some none
       | _ => j.completed_at) else j.completed_at }

/-- The metadata merge loop of update_job_status
(src/app/worker/activities/status.py lines 56-60): each key, value pair is
assigned via setattr whenever the job has an attribute of that name. -/
def applyMetadata (j : Job) (m : Metadata) : Job :=
  m.foldl (fun j kv => if j.hasattr kv.1 then j.setattr kv.1 kv.2 else j) j

/-- Input of the update_job_status activity, src/app/worker/models.py lines
47-54.  The Python status field is a string, converted by JobState(...) in the
gateway's else branch; it is modelled directly as a JobState. -/
structure UpdateJobStatusInput where
  job_id : String
  status : JobState
  tenant_id : String
  result : Option String
  error : Option ErrorInfo
  metadata : Option Metadata
deriving Repr

/-- The single-row lookup select(Job).where(Job.id == job_id) with
scalar_one_or_none (status.py lines 30-32) resp. scalar_one_or_none in the
routes, over the list-modelled store: the first row with a matching id. -/
def findJob : List Job → String → Option Job
  | [], _ => none
  | j :: rest, jid => if j.id = jid then some j else findJob rest jid

/-- Python metadata.get(key) for the int-valued metric reads of status.py
lines 49-50; a missing key or missing metadata yields None. -/
def metaGetInt (m : Option Metadata) (key : String) : Option Int :=
  match m with
  | none => none
  | some l =>
      match l.lookup key with
      | some (MetaVal.mInt n) => some n
      | _ => none

/-- update_job_status (src/app/worker/activities/status.py lines 12-72) over a
job store modelled as a list of rows: look the job up by id, fail when absent,
fail on a tenant mismatch, then dispatch on the requested status — SUCCEEDED
requires a result and calls mark_as_succeeded with the two metric metadata
reads; FAILED calls record_failure with the supplied error, defaulting to the
single-key dict "Unknown error"; any other status is assigned directly and
followed by the metadata merge loop.  The updated row replaces the old one. -/
def update_job_status (db : List Job) (inp : UpdateJobStatusInput) (now : Int) :
    Except PyError (List Job) :=
  match findJob db inp.job_id with
  | none => Except.error (PyError.valError ("Job " ++ inp.job_id ++ " not found"))
  | some job =>
      if job.tenant_id ≠ inp.tenant_id then
        Except.error (PyError.valError "Job belongs to a different tenant")
      else do
        let job' ←
          if inp.status = JobState.SUCCEEDED then
            match inp.result with
            | none =>
                Except.error (PyError.valError "Result is required for SUCCEEDED status")
            | some r =>
                Except.ok (job.mark_as_succeeded r
                  (metaGetInt inp.metadata "media_duration")
                  (metaGetInt inp.metadata "processing_time") now)
          else if inp.status = JobState.FAILED then
            Except.ok (job.record_failure
              (inp.error.getD (ErrorInfo.msg "Unknown error")) now)
          else
            Except.ok (applyMetadata { job with state := inp.status }
              (inp.metadata.getD []))
        Except.ok (db.map (fun x => if x.id = inp.job_id then job' else x))

theorem setattr_frame (j : Job) (key : String) (v : MetaVal)
    (h1 : key ≠ "id") (h2 : key ≠ "tenant_id") (h3 : key ≠ "state")
    (h4 : key ≠ "attempt_count") (h5 : key ≠ "max_attempts")
    (h6 : key ≠ "error_history") :
    (j.setattr key v).id = j.id ∧
    (j.setattr key v).tenant_id = j.tenant_id ∧
    (j.setattr key v).state = j.state ∧
    (j.setattr key v).attempt_count = j.attempt_count ∧
    (j.setattr key v).max_attempts = j.max_attempts ∧
    (j.setattr key v).error_history = j.error_history := by
  exact ⟨if_neg h1, if_neg h2, if_neg h3, if_neg h4, if_neg h5, if_neg h6⟩

theorem applyMetadata_frame (m : Metadata) :
    ∀ j : Job,
      (∀ kv ∈ m, kv.1 ≠ "id" ∧ kv.1 ≠ "tenant_id" ∧ kv.1 ≠ "state" ∧
        kv.1 ≠ "attempt_count" ∧ kv.1 ≠ "max_attempts" ∧
        kv.1 ≠ "error_history") →
      (applyMetadata j m).id = j.id ∧
      (applyMetadata j m).tenant_id = j.tenant_id ∧
      (applyMetadata j m).state = j.state ∧
      (applyMetadata j m).attempt_count = j.attempt_count ∧
      (applyMetadata j m).max_attempts = j.max_attempts ∧
      (applyMetadata j m).error_history = j.error_history := by
  induction m with
  | nil =>
      intro j _
      exact ⟨rfl, rfl, rfl, rfl, rfl, rfl⟩
  | cons kv rest ih =>
      intro j h
      obtain ⟨hk1, hk2, hk3, hk4, hk5, hk6⟩ := h kv (by simp)
      have hrest : ∀ kv' ∈ rest, kv'.1 ≠ "id" ∧ kv'.1 ≠ "tenant_id" ∧
          kv'.1 ≠ "state" ∧ kv'.1 ≠ "attempt_count" ∧ kv'.1 ≠ "max_attempts" ∧
          kv'.1 ≠ "error_history" := fun kv' hm => h kv' (by simp [hm])
      have hstep :
          (if j.hasattr kv.1 then j.setattr kv.1 kv.2 else j).id = j.id ∧
          (if j.hasattr kv.1 then j.setattr kv.1 kv.2 else j).tenant_id = j.tenant_id ∧
          (if j.hasattr kv.1 then j.setattr kv.1 kv.2 else j).state = j.state ∧
          (if j.hasattr kv.1 then j.setattr kv.1 kv.2 else j).attempt_count = j.attempt_count ∧
          (if j.hasattr kv.1 then j.setattr kv.1 kv.2 else j).max_attempts = j.max_attempts ∧
          (if j.hasattr kv.1 then j.setattr kv.1 kv.2 else j).error_history = j.error_history := by
        split
        · exact setattr_frame j kv.1 kv.2 hk1 hk2 hk3 hk4 hk5 hk6
        · exact ⟨rfl, rfl, rfl, rfl, rfl, rfl⟩
      obtain ⟨hs1, hs2, hs3, hs4, hs5, hs6⟩ := hstep
      obtain ⟨hi1, hi2, hi3, hi4, hi5, hi6⟩ :=
        ih (if j.hasattr kv.1 then j.setattr kv.1 kv.2 else j) hrest
      exact ⟨hi1.trans hs1, hi2.trans hs2, hi3.trans hs3, hi4.trans hs4,
        hi5.trans hs5, hi6.trans hs6⟩

/-- C7 (amended): for a status-update request whose requested status is
neither SUCCEEDED nor FAILED, the gateway assigns the requested state and then
applies every metadata entry whose key names an existing job attribute via
reflective setattr — so an arbitrary attribute CAN be mutated by naming it
(see the counterexample); but every job field whose name occurs in no metadata
key is unchanged: in particular, when no metadata key is one of id, tenant_id,
state, attempt_count, max_attempts, error_history, all six are unchanged and
the final state is exactly the requested one. -/
theorem c7_update_other_status (db : List Job) (inp : UpdateJobStatusInput)
    (now : Int) (job : Job)
    (hfind : findJob db inp.job_id = some job)
    (htenant : job.tenant_id = inp.tenant_id)
    (hs1 : inp.status ≠ JobState.SUCCEEDED)
    (hs2 : inp.status ≠ JobState.FAILED)
    (hkeys : ∀ kv ∈ inp.metadata.getD [], kv.1 ≠ "id" ∧ kv.1 ≠ "tenant_id" ∧
      kv.1 ≠ "state" ∧ kv.1 ≠ "attempt_count" ∧ kv.1 ≠ "max_attempts" ∧
      kv.1 ≠ "error_history") :
    update_job_status db inp now =
      Except.ok (db.map (fun x =>
        if x.id = inp.job_id then
          applyMetadata { job with state := inp.status } (inp.metadata.getD [])
        else x)) ∧
    (applyMetadata { job with state := inp.status }
        (inp.metadata.getD [])).state = inp.status ∧
    (applyMetadata { job with state := inp.status }
        (inp.metadata.getD [])).id = job.id ∧
    (applyMetadata { job with state := inp.status }
        (inp.metadata.getD [])).tenant_id = job.tenant_id ∧
    (applyMetadata { job with state := inp.status }
        (inp.metadata.getD [])).attempt_count = job.attempt_count ∧
    (applyMetadata { job with state := inp.status }
        (inp.metadata.getD [])).max_attempts = job.max_attempts ∧
    (applyMetadata { job with state := inp.status }
        (inp.metadata.getD [])).error_history = job.error_history := by
  obtain ⟨f1, f2, f3, f4, f5, f6⟩ :=
    applyMetadata_frame (inp.metadata.getD [])
      { job with state := inp.status } hkeys
  refine ⟨?_, f3, f1, f2, f4, f5, f6⟩
  simp only [update_job_status, hfind, htenant, ne_eq, not_true_eq_false,
    if_false, if_neg hs1, if_neg hs2]
  rfl

/-- Witness for c7_update_other_status: a DOWNLOADING update carrying a
worker_id metadata entry on a one-row store. -/
theorem c7_update_other_status_witness :
    findJob [mkJob "j1" "tA" "u" none 3 0] "j1" =
      some (mkJob "j1" "tA" "u" none 3 0) ∧
    (update_job_status [mkJob "j1" "tA" "u" none 3 0]
        ⟨"j1", JobState.DOWNLOADING, "tA", none, none,
          some [("worker_id", MetaVal.mStr "w9")]⟩ 5 =
      Except.ok ([mkJob "j1" "tA" "u" none 3 0].map (fun x =>
        if x.id = "j1" then
          applyMetadata { mkJob "j1" "tA" "u" none 3 0 with
            state := JobState.DOWNLOADING } [("worker_id", MetaVal.mStr "w9")]
        else x)) ∧
      (applyMetadata { mkJob "j1" "tA" "u" none 3 0 with
          state := JobState.DOWNLOADING }
          [("worker_id", MetaVal.mStr "w9")]).state = JobState.DOWNLOADING ∧
      (applyMetadata { mkJob "j1" "tA" "u" none 3 0 with
          state := JobState.DOWNLOADING }
          [("worker_id", MetaVal.mStr "w9")]).id = (mkJob "j1" "tA" "u" none 3 0).id ∧
      (applyMetadata { mkJob "j1" "tA" "u" none 3 0 with
          state := JobState.DOWNLOADING }
          [("worker_id", MetaVal.mStr "w9")]).tenant_id =
        (mkJob "j1" "tA" "u" none 3 0).tenant_id ∧
      (applyMetadata { mkJob "j1" "tA" "u" none 3 0 with
          state := JobState.DOWNLOADING }
          [("worker_id", MetaVal.mStr "w9")]).attempt_count =
        (mkJob "j1" "tA" "u" none 3 0).attempt_count ∧
      (applyMetadata { mkJob "j1" "tA" "u" none 3 0 with
          state := JobState.DOWNLOADING }
          [("worker_id", MetaVal.mStr "w9")]).max_attempts =
        (mkJob "j1" "tA" "u" none 3 0).max_attempts ∧
      (applyMetadata { mkJob "j1" "tA" "u" none 3 0 with
          state := JobState.DOWNLOADING }
          [("worker_id", MetaVal.mStr "w9")]).error_history =
        (mkJob "j1" "tA" "u" none 3 0).error_history) :=
  ⟨by decide,
   c7_update_other_status [mkJob "j1" "tA" "u" none 3 0]
     ⟨"j1", JobState.DOWNLOADING, "tA", none, none,
       some [("worker_id", MetaVal.mStr "w9")]⟩ 5
     (mkJob "j1" "tA" "u" none 3 0) (by decide) rfl
     (by decide) (by decide) (by decide)⟩

/-- C7 counterexample: a PROCESSING status update whose metadata names
tenant_id mutates the job's tenant_id through the reflective setattr loop,
refuting the claim that no metadata key can mutate an arbitrary attribute and
that tenant_id is always unchanged. -/
theorem c7_counterexample :
    Except.map (List.map Job.tenant_id)
      (update_job_status [mkJob "j1" "tA" "u" none 3 0]
        ⟨"j1", JobState.PROCESSING, "tA", none, none,
          some [("tenant_id", MetaVal.mStr "tB")]⟩ 5) =
      Except.ok ["tB"] := by
  rfl

/-- S3 location, src/app/worker/models.py lines 7-10. -/
structure S3Location where
  bucket : String
  key : String
deriving DecidableEq, Repr

/-- Python str(e) for the exceptions of the model; for ValueError this is the
constructor message, which is all the modelled workflow paths read. -/
def PyError.str : PyError → String
  | PyError.attrError name => "AttributeError: " ++ name
  | PyError.valError m => m

/-- Python type(e).__name__ for the exceptions of the model. -/
def PyError.typeName : PyError → String
  | PyError.attrError _ => "AttributeError"
  | PyError.valError _ => "ValueError"

/-- download_media activity (src/app/worker/activities/download.py lines
17-159), reduced to its decision structure; the HTTP response status and the
SHA-256 of the downloaded bytes are inputs, the staged object location is the
output.  A non-200 status raises ValueError (lines 67-72); a supplied
non-empty expected hash differing from the computed hash raises ValueError
"Media file hash mismatch" (lines 87-94 — the truthiness test on line 89
skips the check for an empty expected hash). -/
def download_media_activity (expected_hash : Option String)
    (http_status : Nat) (computed_hash : String) (bucket key : String) :
    Except PyError S3Location :=
  if http_status ≠ 200 then
    Except.error (PyError.valError
      ("Failed to download media: HTTP " ++ toString http_status))
  else
    match expected_hash with
    | some h =>
        if h ≠ "" ∧ computed_hash ≠ h then
          Except.error (PyError.valError "Media file hash mismatch")
        else Except.ok ⟨bucket, key⟩
    | none => Except.ok ⟨bucket, key⟩

/-- The failure handler of TranscriptionWorkflow.run
(src/app/worker/workflows/transcription.py lines 140-173): attempt a FAILED
status update carrying str(e) and type(e).__name__ (a failure of that update
is logged and swallowed, lines 161-163), then re-raise the original
exception.  The result pairs the final job store with the re-raised error. -/
def workflow_handle_failure (db : List Job) (job_id tenant_id : String)
    (e : PyError) (now : Int) : List Job × Option PyError :=
  match update_job_status db
      ⟨job_id, JobState.FAILED, tenant_id, none,
        some (ErrorInfo.wfErr e.str e.typeName), none⟩ now with
  | Except.ok db2 => (db2, some e)
  | Except.error _ => (db, some e)

/-- TranscriptionWorkflow.run through its download stage
(src/app/worker/workflows/transcription.py lines 55-79) composed with the
update_job_status activity it executes: first a DOWNLOADING status update,
then the download activity — whose ValueError is non-retryable under
download_retry_policy (line 45), so a hash mismatch reaches the failure
handler without further download attempts; any raising stage diverts into
workflow_handle_failure.  A run whose download succeeds continues into later
stages, returned here right after the download, unmodelled.  Temporal's
failure envelopes around activity exceptions are not modelled: the activity's
own message and type name propagate to the handler. -/
def workflow_through_download (db : List Job) (job_id tenant_id : String)
    (expected_hash : Option String) (http_status : Nat)
    (computed_hash : String) (bucket key : String) (now : Int) :
    List Job × Option PyError :=
  match update_job_status db
      ⟨job_id, JobState.DOWNLOADING, tenant_id, none, none, none⟩ now with
  | Except.error e => workflow_handle_failure db job_id tenant_id e now
  | Except.ok db1 =>
      match download_media_activity expected_hash http_status computed_hash
          bucket key with
      | Except.ok _ => (db1, none)
      | Except.error e => workflow_handle_failure db1 job_id tenant_id e now

/-- HTTP error responses raised by the job routes; 403 exists in HTTP but is
produced by no route. -/
inductive HttpError where
  | e401 (detail : String)
  | e403 (detail : String)
  | e404 (detail : String)
  | e500 (detail : String)
deriving DecidableEq, Repr

/-- get_job route (src/app/api/routes/jobs.py lines 130-185): authenticate the
tenant, look the job up by id with no tenant scoping in the query, answer 404
"Job not found" when the row is absent, and answer the identical 404 when the
row's tenant_id differs from the verified tenant; otherwise the full record
is serialized (the model returns the row). -/
def get_job (db : List Job) (tenant_id : Option String) (job_id : String) :
    Except HttpError Job :=
  match tenant_id with
  | none => Except.error (HttpError.e401 "Valid authentication required")
  | some t =>
      match findJob db job_id with
      | none => Except.error (HttpError.e404 "Job not found")
      | some j =>
          if j.tenant_id ≠ t then Except.error (HttpError.e404 "Job not found")
          else Except.ok j

/-- Request body of the job-creation route, src/app/api/schemas/jobs.py as
consumed in src/app/api/routes/jobs.py lines 63-70. -/
structure CreateJobRequest where
  media_url : String
  media_sha256 : Option String
  processing_mode : Option ProcessingMode
  track_index : Option Int
deriving Repr

/-- The response dict built by create_job, src/app/api/routes/jobs.py lines
115-125. -/
structure CreateJobResponseData where
  id : String
  tenant_id : String
  state : JobState
  media_url : String
  media_sha256 : Option String
  processing_mode : ProcessingMode
  track_index : Option Int
  created_at : Int
  updated_at : Int
deriving DecidableEq, Repr

/-- create_job route (src/app/api/routes/jobs.py lines 45-128): authenticate;
insert a new PENDING job row built from the request; then start the
workflow — on any exception from client acquisition or workflow start (lines
91-112) set the row's state to FAILED with the structured single-key error
dict, commit, and fail with HTTP 500; on success serialize the PENDING row.
The workflow-start outcome, generated id and clock are inputs; the result
pairs the final job row with the HTTP response. -/
def create_job (tenant_id : Option String) (req : CreateJobRequest)
    (new_id : String) (now : Int) (wf_start : Except String Unit) :
    Option Job × Except HttpError CreateJobResponseData :=
  match tenant_id with
  | none => (none, Except.error (HttpError.e401 "Valid authentication required"))
  | some tenant =>
      let job := { mkJob new_id tenant req.media_url req.media_sha256 3 now with
        processing_mode := req.processing_mode.getD ProcessingMode.DOWNMIX
        track_index := req.track_index }
      match wf_start with
      | Except.error e =>
          (some { job with
              state := JobState.FAILED
              error := some (ErrorInfo.msg ("Failed to start workflow: " ++ e)) },
           Except.error (HttpError.e500
             ("Failed to start transcription workflow: " ++ e)))
      | Except.ok _ =>
          (some job,
           Except.ok ⟨job.id, job.tenant_id, job.state, job.media_url,
             job.media_sha256, job.processing_mode, job.track_index,
             job.created_at, job.updated_at⟩)

/-- C3 (amended): a content-hash mismatch is recorded like any other failure:
the download activity raises ValueError "Media file hash mismatch" (not
re-run, being listed non-retryable), the workflow's failure handler runs a
FAILED status update, and record_failure consumes one attempt — so from a
fresh job the final state is RETRYING whenever max_attempts ≥ 2 (FAILED only
when the budget is already ≤ 1), with attempt_count 1 and exactly one
error-history entry; the workflow re-raises the mismatch error. -/
theorem c3_hash_mismatch_retrying
    (id tenant url h computed bucket key : String) (m created now : Int)
    (hh : h ≠ "") (hc : computed ≠ h) (hm : 2 ≤ m) :
    workflow_through_download [mkJob id tenant url (some h) m created]
        id tenant (some h) 200 computed bucket key now =
      ([({ mkJob id tenant url (some h) m created with
            state := JobState.DOWNLOADING }).record_failure
          (ErrorInfo.wfErr "Media file hash mismatch" "ValueError") now],
        some (PyError.valError "Media file hash mismatch")) ∧
    (({ mkJob id tenant url (some h) m created with
          state := JobState.DOWNLOADING }).record_failure
        (ErrorInfo.wfErr "Media file hash mismatch" "ValueError") now).state =
      JobState.RETRYING ∧
    (({ mkJob id tenant url (some h) m created with
          state := JobState.DOWNLOADING }).record_failure
        (ErrorInfo.wfErr "Media file hash mismatch" "ValueError") now).attempt_count = 1 ∧
    (({ mkJob id tenant url (some h) m created with
          state := JobState.DOWNLOADING }).record_failure
        (ErrorInfo.wfErr "Media file hash mismatch" "ValueError") now).error_history =
      some [⟨0, now, ErrorInfo.wfErr "Media file hash mismatch" "ValueError"⟩] := by
  have hnotfail : ¬ ((0 : Int) + 1 ≥ m) := by omega
  have hstep1 : update_job_status [mkJob id tenant url (some h) m created]
      ⟨id, JobState.DOWNLOADING, tenant, none, none, none⟩ now =
      Except.ok [{ mkJob id tenant url (some h) m created with
        state := JobState.DOWNLOADING }] := by
    simp [update_job_status, findJob, applyMetadata, mkJob]
    rfl
  have hdl : download_media_activity (some h) 200 computed bucket key =
      Except.error (PyError.valError "Media file hash mismatch") := by
    simp [download_media_activity, hh, hc]
  have hstep2 : update_job_status
      [{ mkJob id tenant url (some h) m created with
          state := JobState.DOWNLOADING }]
      ⟨id, JobState.FAILED, tenant, none,
        some (ErrorInfo.wfErr "Media file hash mismatch" "ValueError"), none⟩ now =
      Except.ok [({ mkJob id tenant url (some h) m created with
          state := JobState.DOWNLOADING }).record_failure
        (ErrorInfo.wfErr "Media file hash mismatch" "ValueError") now] := by
    simp [update_job_status, findJob, mkJob]
    rfl
  refine ⟨?_, ?_, ?_, ?_⟩
  · simp only [workflow_through_download, hstep1, hdl, workflow_handle_failure,
      PyError.str, PyError.typeName, hstep2]
  · simp [Job.record_failure, mkJob, hnotfail]
    omega
  · simp [Job.record_failure, mkJob]
  · simp [Job.record_failure, mkJob, entriesFrom]

/-- Witness for c3_hash_mismatch_retrying: expected hash "aaa", computed hash
"bbb", max_attempts 3. -/
theorem c3_hash_mismatch_retrying_witness :
    ("aaa" ≠ "" ∧ "bbb" ≠ "aaa" ∧ (2 : Int) ≤ 3) ∧
    (workflow_through_download [mkJob "j1" "tA" "u" (some "aaa") 3 0]
        "j1" "tA" (some "aaa") 200 "bbb" "wb" "k" 5 =
      ([({ mkJob "j1" "tA" "u" (some "aaa") 3 0 with
            state := JobState.DOWNLOADING }).record_failure
          (ErrorInfo.wfErr "Media file hash mismatch" "ValueError") 5],
        some (PyError.valError "Media file hash mismatch")) ∧
    (({ mkJob "j1" "tA" "u" (some "aaa") 3 0 with
          state := JobState.DOWNLOADING }).record_failure
        (ErrorInfo.wfErr "Media file hash mismatch" "ValueError") 5).state =
      JobState.RETRYING ∧
    (({ mkJob "j1" "tA" "u" (some "aaa") 3 0 with
          state := JobState.DOWNLOADING }).record_failure
        (ErrorInfo.wfErr "Media file hash mismatch" "ValueError") 5).attempt_count = 1 ∧
    (({ mkJob "j1" "tA" "u" (some "aaa") 3 0 with
          state := JobState.DOWNLOADING }).record_failure
        (ErrorInfo.wfErr "Media file hash mismatch" "ValueError") 5).error_history =
      some [⟨0, 5, ErrorInfo.wfErr "Media file hash mismatch" "ValueError"⟩]) :=
  ⟨⟨by decide, by decide, by decide⟩,
   c3_hash_mismatch_retrying "j1" "tA" "u" "aaa" "bbb" "wb" "k" 3 0 5
     (by decide) (by decide) (by decide)⟩

/-- C3 counterexample: a job submitted with expected hash "aaa" whose download
computes "bbb" under the default max_attempts 3 ends the orchestrated
pipeline's failure path in state RETRYING with attempt_count 1 — not FAILED,
and with retry budget remaining — refuting the claim that a hash mismatch
ends in FAILED with no transition to RETRYING. -/
theorem c3_counterexample :
    (workflow_through_download [mkJob "j1" "tA" "u" (some "aaa") 3 0]
        "j1" "tA" (some "aaa") 200 "bbb" "wb" "k" 5).1.map
      (fun j => (j.state, j.attempt_count)) = [(JobState.RETRYING, (1 : Int))] ∧
    JobState.RETRYING ≠ JobState.FAILED := by
  exact ⟨rfl, by decide⟩

/-- C6: looking up an existing job owned by a different tenant yields exactly
the observable outcome of looking up an absent job id — HTTP 404
"Job not found" — never the record and never a forbidden error. -/
theorem c6_cross_tenant_not_found (db db2 : List Job) (t jid jid2 : String)
    (j : Job)
    (hfind : findJob db jid = some j)
    (hother : j.tenant_id ≠ t)
    (habsent : findJob db2 jid2 = none) :
    get_job db (some t) jid = Except.error (HttpError.e404 "Job not found") ∧
    get_job db2 (some t) jid2 = Except.error (HttpError.e404 "Job not found") ∧
    get_job db (some t) jid = get_job db2 (some t) jid2 := by
  have h1 : get_job db (some t) jid =
      Except.error (HttpError.e404 "Job not found") := by
    simp [get_job, hfind, hother]
  have h2 : get_job db2 (some t) jid2 =
      Except.error (HttpError.e404 "Job not found") := by
    simp [get_job, habsent]
  exact ⟨h1, h2, h1.trans h2.symm⟩

/-- Witness for c6_cross_tenant_not_found: a one-row store owned by tenant tA
queried with verified tenant tB, against a lookup of an absent id. -/
theorem c6_cross_tenant_not_found_witness :
    findJob [mkJob "j1" "tA" "u" none 3 0] "j1" =
      some (mkJob "j1" "tA" "u" none 3 0) ∧
    (mkJob "j1" "tA" "u" none 3 0).tenant_id ≠ "tB" ∧
    findJob [mkJob "j1" "tA" "u" none 3 0] "nothere" = none ∧
    (get_job [mkJob "j1" "tA" "u" none 3 0] (some "tB") "j1" =
        Except.error (HttpError.e404 "Job not found") ∧
      get_job [mkJob "j1" "tA" "u" none 3 0] (some "tB") "nothere" =
        Except.error (HttpError.e404 "Job not found") ∧
      get_job [mkJob "j1" "tA" "u" none 3 0] (some "tB") "j1" =
        get_job [mkJob "j1" "tA" "u" none 3 0] (some "tB") "nothere") :=
  ⟨by decide, by decide, by decide,
   c6_cross_tenant_not_found [mkJob "j1" "tA" "u" none 3 0]
     [mkJob "j1" "tA" "u" none 3 0] "tB" "j1" "nothere"
     (mkJob "j1" "tA" "u" none 3 0) (by decide) (by decide) (by decide)⟩

/-- C10: when the orchestration workflow fails to start, the freshly created
job row is not left PENDING — it is committed in state FAILED with the
structured error dict and the request fails with HTTP 500; when the workflow
starts, the response reports the job in state PENDING. -/
theorem c10_create_job_workflow_failure (tenant : String)
    (req : CreateJobRequest) (new_id : String) (now : Int) (e : String) :
    (create_job (some tenant) req new_id now (Except.error e)).1.map Job.state =
      some JobState.FAILED ∧
    (create_job (some tenant) req new_id now (Except.error e)).1.map Job.error =
      some (some (ErrorInfo.msg ("Failed to start workflow: " ++ e))) ∧
    (create_job (some tenant) req new_id now (Except.error e)).2 =
      Except.error (HttpError.e500
        ("Failed to start transcription workflow: " ++ e)) ∧
    (create_job (some tenant) req new_id now (Except.ok ())).1.map Job.state =
      some JobState.PENDING ∧
    (create_job (some tenant) req new_id now (Except.ok ())).2 =
      Except.ok ⟨new_id, tenant, JobState.PENDING, req.media_url,
        req.media_sha256, req.processing_mode.getD ProcessingMode.DOWNMIX,
        req.track_index, now, now⟩ :=
  ⟨rfl, rfl, rfl, rfl, rfl⟩

end WhisperServe
